import Mathlib

/-!
DebugLib: the `runtime_assert` header (`src/debuglib.hpp`).

A shallow embedding of the single header of the library.

* The conditional-inclusion chain of the header (`#ifdef DEBUG`, `#elif defined(NDEBUG)`,
  `#elif defined(REMOVE_MY_DEBUG)`, `#else #error`) is the function `header`.
* The four `DEBUG_PRINT_impl` overloads are `DEBUG_PRINT_impl` (a call written where all
  four overloads are declared) and `DEBUG_PRINT_impl_rest` (the call `DEBUG_PRINT_impl(rest...)`
  written inside a variadic overload).
* The three `runtime_assert_impl` overloads are `runtime_assert_impl_ref`,
  `runtime_assert_impl_message` and `runtime_assert_impl_condition`.
* A call site `runtime_assert(condition, reasons...)` is `runtime_assert`.

Text is `String`. `std::print` without a stream argument writes to the C stream `stdout`,
which is buffered: a stream keeps apart the text already delivered to the terminal, pipe or
file and the text still pending in its buffer. The header never flushes.
-/

namespace DebugLib

/-! ## Build configuration -/

/-- Build switches tested by the header: whether each of the three names is defined. -/
structure Flags where
  DEBUG : Bool
  NDEBUG : Bool
  REMOVE_MY_DEBUG : Bool
  deriving DecidableEq, Repr

/-- Predefined names of the compiler that the header tests:
`__MSVCRT__`, `__GNUC__`, `__clang__`, `__INTEL_COMPILER`. -/
structure Toolchain where
  MSVCRT : Bool
  GNUC : Bool
  clang : Bool
  INTEL_COMPILER : Bool
  deriving DecidableEq, Repr

/-- What the header leaves behind for the name `runtime_assert`. -/
inductive Definition where
  /-- Line 102: `#define runtime_assert(condition, ...) do { static_assert(...);
  runtime_assert_impl(condition, __VA_ARGS__); } while (0)`. -/
  | wrapper
  /-- Line 104: `#define runtime_assert runtime_assert_impl`. -/
  | forward
  /-- Lines 107 and 108: a function-like definition with the given number of parameters and an
  empty replacement list (the `// discard` comment is removed before preprocessing). -/
  | discard (parameters : Nat)
  /-- Line 110: nothing is defined. -/
  | undefined
  deriving DecidableEq, Repr

/-- Reasons for which a translation unit using the header is rejected. -/
inductive CompileError where
  /-- Line 112: the `#error` directive. -/
  | errorDirective
  /-- Line 102: `static_assert(not __builtin_constant_p(condition), ...)` fails. -/
  | staticAssertFailed
  /-- Line 102 with no reason: the replacement is `runtime_assert_impl(condition, )`. -/
  | emptyArgument
  /-- No overload of `runtime_assert_impl` accepts the arguments. -/
  | noMatchingOverload
  /-- A function-like definition of `runtime_assert` is invoked with a number of arguments
  different from its number of parameters. -/
  | argumentCount
  /-- The name `runtime_assert` is used but the header has not defined it. -/
  | undeclaredName
  deriving DecidableEq, Repr

/-- A `#define` of a name that already has a definition: compilers report the redefinition and
keep the later one. -/
def define (_previous : Definition) (next : Definition) : Definition := next

/-- The conditional-inclusion chain of the header, lines 10, 101-113: it either stops at
`#error` or leaves a definition of `runtime_assert`. The branches are tried in the order
`DEBUG`, `NDEBUG`, `REMOVE_MY_DEBUG`; the first name that is defined decides. -/
def header (f : Flags) (tc : Toolchain) : Except CompileError Definition :=
  if f.DEBUG then
    if tc.GNUC then .ok .wrapper else .ok .forward
  else if f.NDEBUG then
    .ok (define (define .undefined (.discard 2)) (.discard 1))
  else if f.REMOVE_MY_DEBUG then
    .ok .undefined
  else
    .error .errorDirective

/-- Number of the three build switches that are set. -/
def Flags.count (f : Flags) : Nat :=
  f.DEBUG.toNat + f.NDEBUG.toNat + f.REMOVE_MY_DEBUG.toNat

/-! ## Process state and values -/

/-- Buffering mode of a C stream (`_IONBF`, `_IOLBF`, `_IOFBF`), with the size of the
buffer. By default `stdout` is line buffered on an interactive device and fully buffered
otherwise. -/
inductive Buffering where
  /-- Characters are transmitted as soon as they are written. -/
  | unbuffered
  /-- Characters are transmitted as a block when a new-line is written, or when the buffer is
  filled. -/
  | line (capacity : Nat)
  /-- Characters are transmitted as a block when the buffer is filled. -/
  | full (capacity : Nat)
  deriving DecidableEq, Repr

/-- Number of characters of a buffer content up to and including its last new-line; zero
when it has none. -/
def afterLastNewline (buffer : List Char) : Nat :=
  buffer.length - (buffer.reverse.takeWhile (fun c => c != '\n')).length

/-- Number of leading characters of the buffer content that are transmitted after a write. -/
def Buffering.transmit : Buffering → List Char → Nat
  | .unbuffered, buffer => buffer.length
  | .line capacity, buffer =>
    if capacity ≤ buffer.length then buffer.length else afterLastNewline buffer
  | .full capacity, buffer =>
    if capacity ≤ buffer.length then buffer.length else 0

/-- A C output stream: the text that has been delivered to the outside, the text written by
the program that is still in the buffer, and the buffering mode. -/
structure Stream where
  delivered : String
  pending : String
  mode : Buffering
  deriving DecidableEq, Repr

/-- All the text the program has written to the stream, delivered or not. -/
def Stream.written (s : Stream) : String := s.delivered ++ s.pending

/-- Observable state of the running process: the stream `stdout`, the text that has reached
standard error, and the memory of the program itself (which the library never touches). -/
structure Proc where
  stdout : Stream
  stderr : String
  memory : List Int
  deriving DecidableEq, Repr

/-- How a failed assertion ends the process. -/
inductive Termination where
  /-- Under `__MSVCRT__`: `__debugbreak()` followed by `std::abort()`. -/
  | debugbreakAbort
  /-- Under `__GNUC__`, `__clang__` or `__INTEL_COMPILER`: `__builtin_trap()`, which does not
  return; the following `std::abort()` is not reached. -/
  | trap
  /-- Otherwise: `std::abort()` alone. -/
  | abort
  deriving DecidableEq, Repr

/-- Result of running a call. -/
inductive Outcome where
  /-- Control returns to the caller, in the given state. -/
  | returned (p : Proc)
  /-- The process is terminated abnormally, in the given state. Neither the trap nor
  `std::abort()` flushes the streams: the text pending in `p.stdout` is never delivered. -/
  | terminated (p : Proc) (how : Termination)
  deriving DecidableEq, Repr

/-- A printable argument of `DEBUG_PRINT_impl`. `text` is what the format specification
`{}` produces for it. `globalNamespace` tells whether the global namespace is an associated
namespace of its type (a class declared at global scope); it is `false` for the fundamental
types, pointers and arrays of them, and the types of namespace `std`. -/
structure Value where
  text : String
  globalNamespace : Bool
  deriving DecidableEq, Repr

/-- A string literal or `const char*` argument. -/
def Value.str (s : String) : Value := ⟨s, false⟩

/-- An unsigned integer argument, formatted in decimal. -/
def Value.nat (n : Nat) : Value := ⟨Nat.repr n, false⟩

/-- A signed integer argument, formatted in decimal. -/
def Value.int (i : Int) : Value := ⟨toString i, false⟩

/-- The object `std::source_location`: `file_name()`, `line()`, `function_name()`. -/
structure SourceLocation where
  file_name : String
  line : Nat
  function_name : String
  deriving DecidableEq, Repr

/-! ## `DEBUG_PRINT_impl` -/

/-- The call `std::print(fmt, arg)` with no stream argument: the text is appended to the
buffer of `stdout`, and the leading part of the buffer selected by the buffering mode is
delivered. -/
def print (text : String) (p : Proc) : Proc :=
  let buffer := p.stdout.pending.data ++ text.data
  let count := p.stdout.mode.transmit buffer
  { p with stdout := { p.stdout with
      delivered := p.stdout.delivered ++ String.mk (buffer.take count)
      pending := String.mk (buffer.drop count) } }

/-- The two shapes of `DEBUG_PRINT_impl`. The overloads of lines 27 and 34 have the same body,
and so have those of lines 42 and 47. -/
inductive PrintOverload where
  /-- Lines 26-39: `(current, rest...)`, prints with the format `"{} "`. -/
  | variadic
  /-- Lines 41-50: `(last)`, prints with the format `"{}"`. -/
  | last
  deriving DecidableEq, Repr

/-- Candidates of a call written after line 50, where all four overloads are declared. -/
def candidatesOutside : List PrintOverload := [.variadic, .last]

/-- Candidates of the dependent call `DEBUG_PRINT_impl(rest...)` of lines 31 and 38. Unqualified
lookup is done from the template definition and finds the variadic overloads only, the
single-argument ones being declared further down (lines 41-50). Those are found by
argument-dependent lookup alone, that is when the global namespace is an associated namespace
of one of the arguments. -/
def candidatesInside (args : List Value) : List PrintOverload :=
  if args.any (fun v => v.globalNamespace) then [.variadic, .last] else [.variadic]

/-- Overload resolution among the candidates: with one argument the single-argument template
is more specialised than the variadic one with an empty pack and is selected when it is a
candidate; otherwise a variadic overload is selected. -/
def resolve (candidates : List PrintOverload) (arguments : Nat) : PrintOverload :=
  if arguments = 1 ∧ PrintOverload.last ∈ candidates then .last else .variadic

/-- The call `DEBUG_PRINT_impl(rest...)` made inside a variadic overload, guarded by
`if constexpr (sizeof...(rest) > 0)`: nothing happens for the empty pack. -/
def DEBUG_PRINT_impl_rest : List Value → Proc → Proc
  | [], p => p
  | current :: rest, p =>
    match resolve (candidatesInside (current :: rest)) (rest.length + 1) with
    | .last => print current.text p
    | .variadic => DEBUG_PRINT_impl_rest rest (print (current.text ++ " ") p)

/-- The call `DEBUG_PRINT_impl(current, rest...)` written after the four overloads (as the
calls in `runtime_assert_impl` are). There is no overload without argument. -/
def DEBUG_PRINT_impl (current : Value) (rest : List Value) (p : Proc) : Proc :=
  match resolve candidatesOutside (rest.length + 1) with
  | .last => print current.text p
  | .variadic => DEBUG_PRINT_impl_rest rest (print (current.text ++ " ") p)

/-! ## `runtime_assert_impl` -/

/-- Lines 64-69, 79-84, 93-98: the debugger trap chosen by the preprocessor, then
`std::abort()`. No flush of `stdout` precedes them, so the process ends with its buffer as the
print calls have left it. -/
def trapAndAbort (tc : Toolchain) (p : Proc) : Outcome :=
  if tc.MSVCRT then .terminated p .debugbreakAbort
  else if tc.GNUC || tc.clang || tc.INTEL_COMPILER then .terminated p .trap
  else .terminated p .abort

/-- The argument list of the call on lines 63 and 77. -/
def messageArguments (message : Value) (location : SourceLocation) : List Value :=
  [message, Value.str ".\nSource: ", Value.str location.file_name, Value.str ":",
    Value.nat location.line, Value.str "@", Value.str location.function_name]

/-- The argument list of the call on line 91, after its first argument. -/
def conditionArguments (location : SourceLocation) : List Value :=
  [Value.str location.file_name, Value.str ":", Value.nat location.line, Value.str "@",
    Value.str location.function_name]

/-- Lines 58-70: the overload taking the message as `auto_const_reference <T>`. -/
def runtime_assert_impl_ref (tc : Toolchain) (condition : Bool) (message : Value)
    (location : SourceLocation) (p : Proc) : Outcome :=
  if condition then .returned p
  else
    trapAndAbort tc
      (DEBUG_PRINT_impl (Value.str "Runtime assertion failed. Reason: ")
        (messageArguments message location) p)

/-- Lines 72-85: the overload taking the message as `T&&`. -/
def runtime_assert_impl_message (tc : Toolchain) (condition : Bool) (message : Value)
    (location : SourceLocation) (p : Proc) : Outcome :=
  if condition then .returned p
  else
    trapAndAbort tc
      (DEBUG_PRINT_impl (Value.str "Runtime assertion failed. Reason: ")
        (messageArguments message location) p)

/-- Lines 86-99: the overload without message. -/
def runtime_assert_impl_condition (tc : Toolchain) (condition : Bool)
    (location : SourceLocation) (p : Proc) : Outcome :=
  if condition then .returned p
  else
    trapAndAbort tc
      (DEBUG_PRINT_impl (Value.str "Runtime assertion failed.\nSource: ")
        (conditionArguments location) p)

/-- Overload resolution for `runtime_assert_impl(condition, reasons...)`, the reasons being
printable values (none of them is a `std::source_location`, which has no formatter). The only
parameter after the message is the source location, so a second reason has no parameter to
bind to. -/
def runtime_assert_impl (tc : Toolchain) (condition : Bool) (reasons : List Value)
    (location : SourceLocation) (p : Proc) : Except CompileError Outcome :=
  match reasons with
  | [] => .ok (runtime_assert_impl_condition tc condition location p)
  | [message] => .ok (runtime_assert_impl_message tc condition message location p)
  | _ :: _ :: _ => .error .noMatchingOverload

/-! ## Call sites -/

/-- A call `runtime_assert(condition, reasons...)` in the program. Evaluating the condition
expression yields its truth value and may change the state; `constant` tells whether
`__builtin_constant_p(condition)` holds. -/
structure CallSite where
  condition : Proc → Bool × Proc
  constant : Bool
  reasons : List Value
  location : SourceLocation

/-- A call site compiled against the header under the given build switches and toolchain,
and run from state `p`. -/
def runtime_assert (f : Flags) (tc : Toolchain) (site : CallSite) (p : Proc) :
    Except CompileError Outcome :=
  match header f tc with
  | .error e => .error e
  | .ok .wrapper =>
    if site.constant then .error .staticAssertFailed
    else if site.reasons.isEmpty then .error .emptyArgument
    else
      let r := site.condition p
      runtime_assert_impl tc r.1 site.reasons site.location r.2
  | .ok .forward =>
    let r := site.condition p
    runtime_assert_impl tc r.1 site.reasons site.location r.2
  | .ok (.discard parameters) =>
    if site.reasons.length + 1 = parameters then .ok (.returned p)
    else .error .argumentCount
  | .ok .undefined => .error .undeclaredName

/-- Substring containment on texts. -/
def Contains (text pattern : String) : Prop := pattern.data <:+: text.data

instance (text pattern : String) : Decidable (Contains text pattern) := by
  unfold Contains; infer_instance

/-- State in which a call has left the process. -/
def Outcome.proc : Outcome → Proc
  | .returned p => p
  | .terminated p _ => p

/-- Text written to `stdout` by the call on lines 63 and 77 (see `message_written`): every
argument is followed by one space. -/
def messageText (message : Value) (location : SourceLocation) : String :=
  "Runtime assertion failed. Reason: " ++ " " ++ message.text ++ " " ++ ".\nSource: "
    ++ " " ++ location.file_name ++ " " ++ ":" ++ " " ++ Nat.repr location.line ++ " "
    ++ "@" ++ " " ++ location.function_name ++ " "

/-- Text written to `stdout` by the call on line 91 (see `condition_written`): every argument
is followed by one space. -/
def conditionText (location : SourceLocation) : String :=
  "Runtime assertion failed.\nSource: "
    ++ " " ++ location.file_name ++ " " ++ ":" ++ " " ++ Nat.repr location.line ++ " "
    ++ "@" ++ " " ++ location.function_name ++ " "

/-! ## Sample inputs -/

/-- A call site on line 12 of `main.cpp`, in `int main()`. -/
def sampleLocation : SourceLocation := ⟨"main.cpp", 12, "int main()"⟩

/-- A process that has written nothing yet, its `stdout` being a pipe or a file: fully
buffered. -/
def freshProc : Proc := ⟨⟨"", "", .full 4096⟩, "", []⟩

/-- A process that has written nothing yet, its `stdout` being a terminal: line buffered. -/
def terminalProc : Proc := ⟨⟨"", "", .line 1024⟩, "", []⟩

/-- A process that has written nothing yet, its `stdout` having been made unbuffered. -/
def unbufferedProc : Proc := ⟨⟨"", "", .unbuffered⟩, "", []⟩

/-- GCC: `__GNUC__` is predefined. -/
def gcc : Toolchain := ⟨false, true, false, false⟩

/-- A compiler that predefines none of the four names (MSVC with the UCRT). -/
def msvc : Toolchain := ⟨false, false, false, false⟩

/-- Only `DEBUG` is defined. -/
def debugFlags : Flags := ⟨true, false, false⟩

/-- Only `NDEBUG` is defined. -/
def releaseFlags : Flags := ⟨false, true, false⟩

/-- Only `REMOVE_MY_DEBUG` is defined. -/
def overrideFlags : Flags := ⟨false, false, true⟩

/-- The condition `x == 1` for a variable `x` stored in the first memory cell: not a constant
expression, no side effect. -/
def sampleCondition (p : Proc) : Bool × Proc := (decide (p.memory.head? = some 1), p)

/-- The call `runtime_assert(x == 1)`. -/
def siteConditionOnly : CallSite := ⟨sampleCondition, false, [], sampleLocation⟩

/-- The call `runtime_assert(x == 1, "x must be 1")`. -/
def siteOneReason : CallSite :=
  ⟨sampleCondition, false, [Value.str "x must be 1"], sampleLocation⟩

/-- The call `runtime_assert(x == 1, "bad index", 42)`. -/
def siteTwoReasons : CallSite :=
  ⟨sampleCondition, false, [Value.str "bad index", Value.int 42], sampleLocation⟩


/-! ## Auxiliary facts on texts -/

theorem ite_ne_of_ne {c : Prop} [Decidable c] {a b x : Char} (ha : a ≠ x) (hb : b ≠ x) :
    (if c then a else b) ≠ x := by
  split <;> assumption

theorem digitChar_ne_R (d : Nat) : Nat.digitChar d ≠ 'R' := by
  unfold Nat.digitChar
  repeat' (first | decide | apply ite_ne_of_ne)

theorem toDigitsCore_ne_R (b : Nat) :
    ∀ (fuel n : Nat) (ds : List Char), (∀ c ∈ ds, c ≠ 'R') →
      ∀ c ∈ Nat.toDigitsCore b fuel n ds, c ≠ 'R' := by
  intro fuel
  induction fuel with
  | zero => intro n ds h; simpa [Nat.toDigitsCore] using h
  | succ k ih =>
    intro n ds h
    have hcons : ∀ c ∈ Nat.digitChar (n % b) :: ds, c ≠ 'R' := by
      intro c hc
      rcases List.mem_cons.mp hc with rfl | hc
      · exact digitChar_ne_R _
      · exact h c hc
    unfold Nat.toDigitsCore
    by_cases h0 : n / b = 0
    · simpa [h0] using hcons
    · simpa [h0] using ih (n / b) _ hcons

theorem repr_ne_R (n : Nat) : ∀ c ∈ (Nat.repr n).data, c ≠ 'R' := by
  have := toDigitsCore_ne_R 10 (n + 1) n [] (by simp)
  simpa [Nat.repr, Nat.toDigits, List.asString] using this

theorem infix_split_at_space {pat a b : List Char} (hsp : ' ' ∉ pat)
    (h : pat <:+: a ++ ' ' :: b) : pat <:+: a ∨ pat <:+: b := by
  induction a with
  | nil =>
    rcases List.infix_cons_iff.mp (by simpa using h) with hp | hi
    · rcases List.prefix_cons_iff.mp hp with rfl | ⟨t, rfl, _⟩
      · exact Or.inl List.nil_infix
      · exact absurd (List.mem_cons_self _ _) hsp
    · exact Or.inr hi
  | cons x a ih =>
    rcases List.infix_cons_iff.mp (by simpa using h) with hp | hi
    · have hx : x :: a <+: x :: (a ++ ' ' :: b) := ⟨' ' :: b, by simp⟩
      rcases List.prefix_or_prefix_of_prefix hp hx with h1 | h1
      · exact Or.inl h1.isInfix
      · obtain ⟨t, rfl⟩ := h1
        have ht : t <+: ' ' :: b := by
          have : (x :: a) ++ t <+: (x :: a) ++ ' ' :: b := by simpa using hp
          exact (List.prefix_append_right_inj _).mp this
        rcases List.prefix_cons_iff.mp ht with rfl | ⟨u, rfl, _⟩
        · exact Or.inl (by simp)
        · exact absurd (by simp) hsp
    · rcases ih hi with h1 | h1
      · exact Or.inl (h1.trans (List.infix_cons (List.infix_refl _)))
      · exact Or.inr h1

theorem contains_append_left {t : String} (u : String) {pat : String} (h : Contains t pat) :
    Contains (t ++ u) pat := by
  unfold Contains at *
  rw [String.data_append]
  exact h.trans (List.infix_append' [] _ _)

theorem contains_append_right (u : String) {t pat : String} (h : Contains t pat) :
    Contains (u ++ t) pat := by
  unfold Contains at *
  rw [String.data_append]
  exact h.trans (List.suffix_append _ _).isInfix

theorem contains_self (t : String) : Contains t t := List.infix_refl _

theorem not_contains_condition_text (file fn : String) (n : Nat)
    (hfile : ¬ Contains file "Reason:") (hfn : ¬ Contains fn "Reason:") :
    ¬ Contains (conditionText ⟨file, n, fn⟩) "Reason:" := by
  unfold Contains conditionText at *
  intro h
  have hsp : ' ' ∉ "Reason:".data := by decide
  have e : ("Runtime assertion failed.\nSource: " ++ " " ++ file ++ " " ++ ":" ++ " "
        ++ Nat.repr n ++ " " ++ "@" ++ " " ++ fn ++ " ").data
      = "Runtime assertion failed.\nSource: ".data ++ ' ' :: (file.data ++ ' ' :: ([':'] ++
          ' ' :: ((Nat.repr n).data ++ ' ' :: (['@'] ++ ' ' :: (fn.data ++ ' ' :: []))))) := by
    simp only [String.data_append, List.append_assoc]
    rfl
  rw [e] at h
  rcases infix_split_at_space hsp h with h | h
  · exact absurd h (by decide)
  rcases infix_split_at_space hsp h with h | h
  · exact hfile h
  rcases infix_split_at_space hsp h with h | h
  · exact absurd h (by decide)
  rcases infix_split_at_space hsp h with h | h
  · exact repr_ne_R n 'R' (h.subset (by decide)) rfl
  rcases infix_split_at_space hsp h with h | h
  · exact absurd h (by decide)
  rcases infix_split_at_space hsp h with h | h
  · exact hfn h
  · exact absurd h (by decide)

/-! ## Auxiliary facts on the embedding -/

theorem print_written (text : String) (p : Proc) :
    (print text p).stdout.written = p.stdout.written ++ text := by
  apply String.ext
  simp [print, Stream.written, String.data_append]

theorem print_stderr (text : String) (p : Proc) : (print text p).stderr = p.stderr := rfl

theorem print_memory (text : String) (p : Proc) : (print text p).memory = p.memory := rfl

theorem print_delivered (text : String) (p : Proc) :
    p.stdout.delivered.data <+: (print text p).stdout.delivered.data := by
  simp [print, String.data_append]

theorem rest_frame :
    ∀ (args : List Value) (p : Proc),
      (DEBUG_PRINT_impl_rest args p).stderr = p.stderr ∧
      (DEBUG_PRINT_impl_rest args p).memory = p.memory ∧
      p.stdout.delivered.data <+: (DEBUG_PRINT_impl_rest args p).stdout.delivered.data := by
  intro args
  induction args with
  | nil => intro p; simp [DEBUG_PRINT_impl_rest]
  | cons v rest ih =>
    intro p
    simp only [DEBUG_PRINT_impl_rest]
    split
    · exact ⟨rfl, rfl, print_delivered _ _⟩
    · obtain ⟨h1, h2, h3⟩ := ih (print (v.text ++ " ") p)
      exact ⟨h1, h2, (print_delivered _ _).trans h3⟩

theorem impl_frame (v : Value) (rest : List Value) (p : Proc) :
    (DEBUG_PRINT_impl v rest p).stderr = p.stderr ∧
    (DEBUG_PRINT_impl v rest p).memory = p.memory ∧
    p.stdout.delivered.data <+: (DEBUG_PRINT_impl v rest p).stdout.delivered.data := by
  simp only [DEBUG_PRINT_impl]
  split
  · exact ⟨rfl, rfl, print_delivered _ _⟩
  · obtain ⟨h1, h2, h3⟩ := rest_frame rest (print (v.text ++ " ") p)
    exact ⟨h1, h2, (print_delivered _ _).trans h3⟩

theorem message_written (message : Value) (location : SourceLocation) (p : Proc) :
    (DEBUG_PRINT_impl (Value.str "Runtime assertion failed. Reason: ")
        (messageArguments message location) p).stdout.written
      = p.stdout.written ++ messageText message location := by
  simp [DEBUG_PRINT_impl, DEBUG_PRINT_impl_rest, resolve, candidatesInside, candidatesOutside,
    messageArguments, messageText, Value.str, Value.nat, print_written, String.append_assoc]

theorem condition_written (location : SourceLocation) (p : Proc) :
    (DEBUG_PRINT_impl (Value.str "Runtime assertion failed.\nSource: ")
        (conditionArguments location) p).stdout.written
      = p.stdout.written ++ conditionText location := by
  simp [DEBUG_PRINT_impl, DEBUG_PRINT_impl_rest, resolve, candidatesInside, candidatesOutside,
    conditionArguments, conditionText, Value.str, Value.nat, print_written, String.append_assoc]

/-- What a call has delivered is what was delivered before, followed by a leading part of
the text that was pending and of the text the call has written. -/
theorem flushed_of_written {p q : Proc} {text : String}
    (hw : q.stdout.written = p.stdout.written ++ text)
    (hd : p.stdout.delivered.data <+: q.stdout.delivered.data) :
    ∃ flushed : String, q.stdout.delivered = p.stdout.delivered ++ flushed ∧
      flushed.data <+: (p.stdout.pending ++ text).data := by
  obtain ⟨x, hx⟩ := hd
  have h := congrArg String.data hw
  simp only [Stream.written, String.data_append] at h
  rw [← hx, List.append_assoc, List.append_assoc] at h
  have h2 := List.append_cancel_left h
  refine ⟨String.mk x, ?_, ?_⟩
  · apply String.ext
    simp [String.data_append, hx]
  · rw [String.data_append, ← h2]
    exact List.prefix_append _ _

theorem trapAndAbort_terminated (tc : Toolchain) (p : Proc) :
    ∃ how, trapAndAbort tc p = .terminated p how := by
  unfold trapAndAbort
  split
  · exact ⟨_, rfl⟩
  · split
    · exact ⟨_, rfl⟩
    · exact ⟨_, rfl⟩

/-- A failed assertion with a message ends the process; the state at that point, compared
with the state before the call. -/
theorem message_outcome (tc : Toolchain) (message : Value) (location : SourceLocation)
    (p : Proc) :
    ∃ how q, runtime_assert_impl_message tc false message location p = .terminated q how ∧
      q.stdout.written = p.stdout.written ++ messageText message location ∧
      q.stderr = p.stderr ∧ q.memory = p.memory ∧
      ∃ flushed : String, q.stdout.delivered = p.stdout.delivered ++ flushed ∧
        flushed.data <+: (p.stdout.pending ++ messageText message location).data := by
  obtain ⟨how, h⟩ := trapAndAbort_terminated tc
    (DEBUG_PRINT_impl (Value.str "Runtime assertion failed. Reason: ")
      (messageArguments message location) p)
  obtain ⟨h1, h2, h3⟩ := impl_frame (Value.str "Runtime assertion failed. Reason: ")
    (messageArguments message location) p
  exact ⟨how, _, by simpa [runtime_assert_impl_message] using h,
    message_written message location p, h1, h2,
    flushed_of_written (message_written message location p) h3⟩

/-- A failed assertion without message ends the process; the state at that point, compared
with the state before the call. -/
theorem condition_outcome (tc : Toolchain) (location : SourceLocation) (p : Proc) :
    ∃ how q, runtime_assert_impl_condition tc false location p = .terminated q how ∧
      q.stdout.written = p.stdout.written ++ conditionText location ∧
      q.stderr = p.stderr ∧ q.memory = p.memory ∧
      ∃ flushed : String, q.stdout.delivered = p.stdout.delivered ++ flushed ∧
        flushed.data <+: (p.stdout.pending ++ conditionText location).data := by
  obtain ⟨how, h⟩ := trapAndAbort_terminated tc
    (DEBUG_PRINT_impl (Value.str "Runtime assertion failed.\nSource: ")
      (conditionArguments location) p)
  obtain ⟨h1, h2, h3⟩ := impl_frame (Value.str "Runtime assertion failed.\nSource: ")
    (conditionArguments location) p
  exact ⟨how, _, by simpa [runtime_assert_impl_condition] using h,
    condition_written location p, h1, h2,
    flushed_of_written (condition_written location p) h3⟩

theorem messageText_contains (message : Value) (location : SourceLocation) :
    Contains (messageText message location) "Runtime assertion failed" ∧
    Contains (messageText message location) location.file_name ∧
    Contains (messageText message location) (Nat.repr location.line) ∧
    Contains (messageText message location) location.function_name := by
  unfold messageText
  refine ⟨?_, ?_, ?_, ?_⟩
  · repeat apply contains_append_left
    decide
  all_goals
    repeat (first | exact contains_append_right _ (contains_self _)
                  | apply contains_append_left)

theorem conditionText_contains (location : SourceLocation) :
    Contains (conditionText location) "Runtime assertion failed" ∧
    Contains (conditionText location) location.file_name ∧
    Contains (conditionText location) (Nat.repr location.line) ∧
    Contains (conditionText location) location.function_name := by
  unfold conditionText
  refine ⟨?_, ?_, ?_, ?_⟩
  · repeat apply contains_append_left
    decide
  all_goals
    repeat (first | exact contains_append_right _ (contains_self _)
                  | apply contains_append_left)

theorem join_cons (a : String) (l : List String) :
    String.join (a :: l) = a ++ String.join l := by
  have key : ∀ (l : List String) (b : String),
      List.foldl (fun r s => r ++ s) b l = b ++ List.foldl (fun r s => r ++ s) "" l := by
    intro l
    induction l with
    | nil => intro b; simp
    | cons x xs ih =>
      intro b
      simp only [List.foldl]
      rw [ih (b ++ x), ih ("" ++ x)]
      simp [String.append_assoc]
  simp only [String.join, List.foldl]
  rw [key l ("" ++ a)]
  simp

/-- Inside a variadic overload, arguments of fundamental type are each written with the
format `"{} "`, the last one included. -/
theorem DEBUG_PRINT_impl_rest_fundamental :
    ∀ (rest : List Value) (p : Proc), (∀ v ∈ rest, v.globalNamespace = false) →
      (DEBUG_PRINT_impl_rest rest p).stdout.written
        = p.stdout.written ++ String.join (rest.map (fun v => v.text ++ " ")) := by
  intro rest
  induction rest with
  | nil => intro p _; simp [DEBUG_PRINT_impl_rest, String.join]
  | cons v rest ih =>
    intro p h
    have hv : v.globalNamespace = false := h v (List.mem_cons_self _ _)
    have hrest : ∀ w ∈ rest, w.globalNamespace = false :=
      fun w hw => h w (List.mem_cons_of_mem _ hw)
    have hany : rest.any (fun v => v.globalNamespace) = false := by
      simpa [List.any_eq_false] using hrest
    simp [DEBUG_PRINT_impl_rest, resolve, candidatesInside, hv, hany, ih _ hrest,
      print_written, join_cons, String.append_assoc]

/-! ## The assertion engine -/

set_option maxRecDepth 20000

/-- C1 at `main.cpp:12`, `int main()`, with `stdout` in its default modes: the process is
terminated by the trap while the diagnostic is still in the buffer of `stdout`. Through a
pipe nothing has been delivered; on a terminal only the first line has, which names neither
the file, nor the line, nor the function. -/
theorem diagnostic_lost_at_termination :
    runtime_assert_impl_condition gcc false sampleLocation freshProc
      = .terminated
          ⟨⟨"", "Runtime assertion failed.\nSource:  main.cpp : 12 @ int main() ", .full 4096⟩,
            "", []⟩ .trap ∧
    (runtime_assert_impl_message gcc false (Value.str "bad index") sampleLocation
        freshProc).proc.stdout.delivered = "" ∧
    (runtime_assert_impl_condition gcc false sampleLocation terminalProc).proc.stdout.delivered
      = "Runtime assertion failed.\n" ∧
    (runtime_assert_impl_message gcc false (Value.str "bad index") sampleLocation
        terminalProc).proc.stdout.delivered
      = "Runtime assertion failed. Reason:  bad index .\n" ∧
    ¬ Contains "" "Runtime assertion failed" ∧
    ¬ Contains "Runtime assertion failed.\n" sampleLocation.file_name ∧
    ¬ Contains "Runtime assertion failed.\n" sampleLocation.function_name ∧
    ¬ Contains "Runtime assertion failed. Reason:  bad index .\n" sampleLocation.file_name ∧
    ¬ Contains "Runtime assertion failed. Reason:  bad index .\n"
        sampleLocation.function_name := by
  refine ⟨?_, ?_, ?_, ?_, ?_, ?_, ?_, ?_, ?_⟩ <;> decide

/-- A failed assertion never returns, on any toolchain and whatever the buffering: the
process is terminated, the whole diagnostic having been written to the stream `stdout`
(delivered or still pending). -/
theorem failed_assertion_terminates (tc : Toolchain) (message : Value)
    (location : SourceLocation) (p : Proc) :
    (∃ how q, runtime_assert_impl_message tc false message location p = .terminated q how ∧
        q.stdout.written = p.stdout.written ++ messageText message location) ∧
    (∃ how q, runtime_assert_impl_condition tc false location p = .terminated q how ∧
        q.stdout.written = p.stdout.written ++ conditionText location) := by
  obtain ⟨how, q, h, hw, _⟩ := message_outcome tc message location p
  obtain ⟨how2, q2, h2, hw2, _⟩ := condition_outcome tc location p
  exact ⟨⟨how, q, h, hw⟩, ⟨how2, q2, h2, hw2⟩⟩

/-- C2: in Debug-active mode, for a true condition, every reason value and every source
location, each overload of `runtime_assert_impl` returns to its caller with the process state
unchanged: nothing is printed, no trap is issued, the process is not aborted. -/
theorem runtime_assert_impl_true_returns (tc : Toolchain) (message : Value)
    (location : SourceLocation) (p : Proc) :
    runtime_assert_impl_ref tc true message location p = .returned p ∧
    runtime_assert_impl_message tc true message location p = .returned p ∧
    runtime_assert_impl_condition tc true location p = .returned p := by
  simp [runtime_assert_impl_ref, runtime_assert_impl_message, runtime_assert_impl_condition]

/-- C3 at the reason "bad index", `main.cpp:12`, `int main()`: even with `stdout` unbuffered,
the text delivered has a space after every piece and is not the text of the claim, which does
not even occur in it; with `stdout` fully buffered the same text is written and none of it is
delivered. -/
theorem diagnostic_has_stray_spaces :
    (runtime_assert_impl_message gcc false (Value.str "bad index") sampleLocation
        unbufferedProc).proc.stdout.delivered
      = "Runtime assertion failed. Reason:  bad index .\nSource:  main.cpp : 12 @ int main() " ∧
    "Runtime assertion failed. Reason:  bad index .\nSource:  main.cpp : 12 @ int main() "
      ≠ "Runtime assertion failed. Reason: " ++ "bad index" ++ "." ++ "\n" ++ "Source: "
          ++ "main.cpp" ++ ":" ++ Nat.repr 12 ++ "@" ++ "int main()" ∧
    ¬ Contains
        "Runtime assertion failed. Reason:  bad index .\nSource:  main.cpp : 12 @ int main() "
        ("Runtime assertion failed. Reason: " ++ "bad index" ++ "." ++ "\n" ++ "Source: "
          ++ "main.cpp" ++ ":" ++ Nat.repr 12 ++ "@" ++ "int main()") ∧
    (runtime_assert_impl_message gcc false (Value.str "bad index") sampleLocation
        freshProc).proc.stdout.written
      = "Runtime assertion failed. Reason:  bad index .\nSource:  main.cpp : 12 @ int main() " ∧
    (runtime_assert_impl_message gcc false (Value.str "bad index") sampleLocation
        freshProc).proc.stdout.delivered = "" := by
  refine ⟨?_, ?_, ?_, ?_, ?_⟩ <;> decide

/-- C4: in Debug-active mode, for a false condition and a source location whose file name
and function name do not contain "Reason:", the assertion without reason value writes a text
that does not contain "Reason:"; what the call delivers to standard output is a leading part
of the text pending before the call followed by that text. -/
theorem diagnostic_without_reason_clause (tc : Toolchain) (location : SourceLocation)
    (p : Proc) (hfile : ¬ Contains location.file_name "Reason:")
    (hfunction : ¬ Contains location.function_name "Reason:") :
    ∃ how q text,
      runtime_assert_impl_condition tc false location p = .terminated q how ∧
      q.stdout.written = p.stdout.written ++ text ∧ ¬ Contains text "Reason:" ∧
      ∃ flushed : String, q.stdout.delivered = p.stdout.delivered ++ flushed ∧
        flushed.data <+: (p.stdout.pending ++ text).data := by
  obtain ⟨how, q, h, hw, _, _, hf⟩ := condition_outcome tc location p
  exact ⟨how, q, conditionText location, h, hw,
    not_contains_condition_text _ _ _ hfile hfunction, hf⟩

/-- The hypotheses of `diagnostic_without_reason_clause` hold at `main.cpp:12`,
`int main()`. -/
theorem diagnostic_without_reason_clause_witness :
    ¬ Contains sampleLocation.file_name "Reason:" ∧
    ¬ Contains sampleLocation.function_name "Reason:" ∧
    ∃ how q text,
      runtime_assert_impl_condition gcc false sampleLocation freshProc = .terminated q how ∧
      q.stdout.written = freshProc.stdout.written ++ text ∧ ¬ Contains text "Reason:" ∧
      ∃ flushed : String, q.stdout.delivered = freshProc.stdout.delivered ++ flushed ∧
        flushed.data <+: (freshProc.stdout.pending ++ text).data :=
  ⟨by decide, by decide,
    diagnostic_without_reason_clause gcc sampleLocation freshProc (by decide) (by decide)⟩

/-- The call `runtime_assert(x == 1, "bad index", 42)` of C5 is rejected in Debug-active mode,
with either definition of `runtime_assert`, so that no diagnostic is emitted. -/
theorem two_reasons_rejected :
    runtime_assert debugFlags gcc siteTwoReasons freshProc = .error .noMatchingOverload ∧
    runtime_assert debugFlags msvc siteTwoReasons freshProc = .error .noMatchingOverload := by
  constructor <;> rfl

/-- C5, amended: in Debug-active mode the assertion accepts at most one reason value. A call
with two or more reason values matches no overload of `runtime_assert_impl` and is rejected
at compile time, whatever the condition; no diagnostic is emitted. -/
theorem more_than_one_reason_rejected (f : Flags) (tc : Toolchain) (site : CallSite)
    (p : Proc) (hdebug : f.DEBUG = true) (hmany : 2 ≤ site.reasons.length) :
    (∀ (condition : Bool) (q : Proc),
        runtime_assert_impl tc condition site.reasons site.location q
          = .error .noMatchingOverload) ∧
    (∃ e, runtime_assert f tc site p = .error e) := by
  have himpl : ∀ (condition : Bool) (q : Proc),
      runtime_assert_impl tc condition site.reasons site.location q
        = .error .noMatchingOverload := by
    intro condition q
    match hr : site.reasons with
    | [] => rw [hr] at hmany; simp at hmany
    | [_] => rw [hr] at hmany; simp at hmany
    | _ :: _ :: _ => rfl
  have hne : site.reasons.isEmpty = false := by
    cases hr : site.reasons with
    | nil => rw [hr] at hmany; simp at hmany
    | cons _ _ => rfl
  refine ⟨himpl, ?_⟩
  unfold runtime_assert header
  simp only [hdebug, if_true]
  by_cases hg : tc.GNUC = true
  · by_cases hc : site.constant = true
    · exact ⟨.staticAssertFailed, by simp [hg, hc]⟩
    · exact ⟨.noMatchingOverload, by simp [hg, hc, hne, himpl]⟩
  · exact ⟨.noMatchingOverload, by simp [hg, himpl]⟩

/-- The hypotheses of `more_than_one_reason_rejected` hold for the call
`runtime_assert(x == 1, "bad index", 42)` with only `DEBUG` defined. -/
theorem more_than_one_reason_rejected_witness :
    debugFlags.DEBUG = true ∧ 2 ≤ siteTwoReasons.reasons.length ∧
    (∀ (condition : Bool) (q : Proc),
        runtime_assert_impl gcc condition siteTwoReasons.reasons siteTwoReasons.location q
          = .error .noMatchingOverload) ∧
    (∃ e, runtime_assert debugFlags gcc siteTwoReasons freshProc = .error e) :=
  ⟨rfl, by decide,
    more_than_one_reason_rejected debugFlags gcc siteTwoReasons freshProc rfl (by decide)⟩

/-- The diagnostic of C9 at `main.cpp:12`: after the failed assertion nothing has reached
standard error, whatever the buffering of `stdout`, and with `stdout` unbuffered the
diagnostic has reached standard output. -/
theorem diagnostic_not_on_stderr :
    (runtime_assert_impl_condition gcc false sampleLocation freshProc).proc.stderr = "" ∧
    (runtime_assert_impl_condition gcc false sampleLocation terminalProc).proc.stderr = "" ∧
    (runtime_assert_impl_condition gcc false sampleLocation unbufferedProc).proc.stderr = "" ∧
    (runtime_assert_impl_message gcc false (Value.str "bad index") sampleLocation
      freshProc).proc.stderr = "" ∧
    ¬ Contains "" "Runtime assertion failed" ∧
    (runtime_assert_impl_condition gcc false sampleLocation unbufferedProc).proc.stdout.delivered
      = "Runtime assertion failed.\nSource:  main.cpp : 12 @ int main() " := by
  refine ⟨?_, ?_, ?_, ?_, ?_, ?_⟩ <;> decide

/-- C9, amended: in Debug-active mode, for a false condition, no part of the diagnostic is
written to standard error; the diagnostic is written to the stream `stdout` and to nothing
else, and what the call delivers to standard output is a leading part of the text pending
before the call followed by the diagnostic. -/
theorem diagnostic_directed_to_stdout (tc : Toolchain) (message : Value)
    (location : SourceLocation) (p : Proc) :
    (∃ how q text,
        runtime_assert_impl_message tc false message location p = .terminated q how ∧
        q.stderr = p.stderr ∧ q.memory = p.memory ∧
        q.stdout.written = p.stdout.written ++ text ∧
        Contains text "Runtime assertion failed" ∧
        ∃ flushed : String, q.stdout.delivered = p.stdout.delivered ++ flushed ∧
          flushed.data <+: (p.stdout.pending ++ text).data) ∧
    (∃ how q text,
        runtime_assert_impl_condition tc false location p = .terminated q how ∧
        q.stderr = p.stderr ∧ q.memory = p.memory ∧
        q.stdout.written = p.stdout.written ++ text ∧
        Contains text "Runtime assertion failed" ∧
        ∃ flushed : String, q.stdout.delivered = p.stdout.delivered ++ flushed ∧
          flushed.data <+: (p.stdout.pending ++ text).data) := by
  obtain ⟨how, q, h, hw, he, hm, hf⟩ := message_outcome tc message location p
  obtain ⟨how2, q2, h2, hw2, he2, hm2, hf2⟩ := condition_outcome tc location p
  exact ⟨⟨how, q, messageText message location, h, he, hm, hw,
      (messageText_contains message location).1, hf⟩,
    ⟨how2, q2, conditionText location, h2, he2, hm2, hw2,
      (conditionText_contains location).1, hf2⟩⟩

/-- C10 at the call `DEBUG_PRINT_impl(1, 2)`: the text written is "1 2 ", with a space after
the last value, and not the two renderings joined by a single space; this whatever the
buffering, and it is the text delivered when `stdout` is unbuffered. -/
theorem DEBUG_PRINT_impl_trailing_space :
    (DEBUG_PRINT_impl (Value.int 1) [Value.int 2] freshProc).stdout.written = "1 2 " ∧
    (DEBUG_PRINT_impl (Value.int 1) [Value.int 2] terminalProc).stdout.written = "1 2 " ∧
    (DEBUG_PRINT_impl (Value.int 1) [Value.int 2] unbufferedProc).stdout.written = "1 2 " ∧
    (DEBUG_PRINT_impl (Value.int 1) [Value.int 2] unbufferedProc).stdout.delivered = "1 2 " ∧
    "1 2 " ≠ (Value.int 1).text ++ " " ++ (Value.int 2).text := by
  refine ⟨?_, ?_, ?_, ?_, ?_⟩ <;> decide

/-- A call with a single value prints exactly its rendering. -/
theorem DEBUG_PRINT_impl_single (v : Value) (p : Proc) :
    DEBUG_PRINT_impl v [] p = print v.text p := by
  simp [DEBUG_PRINT_impl, resolve, candidatesOutside]

/-- A call with two or more values of fundamental type writes every value followed by a
space, the last one included. -/
theorem DEBUG_PRINT_impl_fundamental (v w : Value) (rest : List Value) (p : Proc)
    (h : ∀ u ∈ w :: rest, u.globalNamespace = false) :
    (DEBUG_PRINT_impl v (w :: rest) p).stdout.written
      = p.stdout.written ++ String.join ((v :: w :: rest).map (fun u => u.text ++ " ")) := by
  have hr := DEBUG_PRINT_impl_rest_fundamental (w :: rest) (print (v.text ++ " ") p) h
  simp only [DEBUG_PRINT_impl, resolve, candidatesOutside]
  rw [if_neg (by simp)]
  simp only [hr, print_written, List.map_cons, join_cons, String.append_assoc]

/-! ## The mode selector and the call sites -/

/-- The configuration of C7 with `DEBUG` and `NDEBUG` both defined has two switches set and
passes the selector: `runtime_assert` is defined as in Debug-active mode. -/
theorem two_flags_build :
    Flags.count ⟨true, true, false⟩ = 2 ∧
    header ⟨true, true, false⟩ gcc = .ok .wrapper ∧
    header ⟨true, true, false⟩ msvc = .ok .forward := by
  refine ⟨?_, ?_, ?_⟩ <;> rfl

/-- C7, amended: the mode selector yields a compile-time failure (the `#error` directive)
exactly for the configuration in which none of the three switches is set; every configuration
with one or more switches set passes the selector. -/
theorem header_fails_iff_no_flag (f : Flags) (tc : Toolchain) :
    (header f tc = .error .errorDirective ↔ f.count = 0) ∧
    ((∃ d, header f tc = .ok d) ↔ 1 ≤ f.count) := by
  obtain ⟨d, n, r⟩ := f
  obtain ⟨m, g, c, i⟩ := tc
  cases d <;> cases n <;> cases r <;> cases g <;>
    simp [header, Flags.count, define]

/-- The call `runtime_assert(x == 1)` of C8: rejected when only `REMOVE_MY_DEBUG` is defined,
while it expands to nothing when only `NDEBUG` is defined. -/
theorem override_differs_from_release :
    runtime_assert overrideFlags gcc siteConditionOnly freshProc = .error .undeclaredName ∧
    runtime_assert releaseFlags gcc siteConditionOnly freshProc = .ok (.returned freshProc) := by
  constructor <;> rfl

/-- C8, amended: in Explicit-override-silent mode (only `REMOVE_MY_DEBUG` set) the header
defines no `runtime_assert`, and every call site, whatever its condition and reasons, fails
to compile. -/
theorem override_call_site_rejected (tc : Toolchain) (site : CallSite) (p : Proc) :
    header overrideFlags tc = .ok .undefined ∧
    runtime_assert overrideFlags tc site p = .error .undeclaredName := by
  constructor <;> rfl

/-- C6 at the call `runtime_assert(x == 1, "x must be 1")` with only `NDEBUG` defined: the
definition left by the header has a single parameter, and the call is rejected. -/
theorem release_call_with_reason_rejected :
    header releaseFlags gcc = .ok (.discard 1) ∧
    runtime_assert releaseFlags gcc siteOneReason freshProc = .error .argumentCount ∧
    runtime_assert releaseFlags msvc siteOneReason freshProc = .error .argumentCount := by
  refine ⟨?_, ?_, ?_⟩ <;> rfl

/-- In Release-silent mode a call with a condition alone expands to nothing: the state is
unchanged whatever evaluating the condition would do. -/
theorem release_condition_only_discarded (tc : Toolchain) (site : CallSite) (p : Proc)
    (h : site.reasons = []) :
    runtime_assert releaseFlags tc site p = .ok (.returned p) := by
  simp [runtime_assert, header, releaseFlags, define, h]

/-- With the wrapper of line 102 (toolchains that predefine `__GNUC__`) a Debug-active call
without reason expands to `runtime_assert_impl(condition, )` and is rejected; the overload
without message is reached through the definition of line 104 only. -/
theorem wrapper_condition_only_rejected (tc : Toolchain) (site : CallSite) (p : Proc)
    (hgnuc : tc.GNUC = true) (hconstant : site.constant = false) (h : site.reasons = []) :
    runtime_assert debugFlags tc site p = .error .emptyArgument := by
  simp [runtime_assert, header, debugFlags, hgnuc, hconstant, h]

end DebugLib
